import Mathlib

/-!
Verification development for the tron-payment-processor repository.

The Python sources are shallowly embedded: amounts are modelled as exact
rationals (the source stores 4-decimal amounts in SQLite REAL columns and
compares them with an explicit 1e-4 tolerance), epoch times as rationals
(seconds) or integers (milliseconds), and the SQLite tables as lists of
typed rows.  Network responses are parameters: every function that the
source feeds from an HTTP response takes the decoded response as an
argument.  Locks, retries on lock contention and sleeps are concurrency
mechanics outside the sequential model; each embedded operation models one
successful attempt of the corresponding source operation.
-/

/-- The 1e-4 amount tolerance used throughout the source. -/
def amountTol : ℚ := 1 / 10000

/-- Rounding to 4 decimal places, modelling round(x, 4) in the source.
On inputs that are exact 4-decimal rationals this is the identity, so the
difference between banker rounding and half-up rounding never arises in the
facts proved below. -/
def round4 (q : ℚ) : ℚ := ((round (q * 10000) : ℤ) : ℚ) / 10000

/-- One row of the transactions table (src/database.py, init_database). -/
structure TransactionRow where
  transaction_id : String
  from_address : String
  to_address : String
  amount : ℚ
  currency : String
  status : String
  payment_form_id : Option String
  deriving DecidableEq, Repr

/-- One row of the payment_forms table (src/database.py, init_database). -/
structure FormRow where
  form_id : String
  amount : ℚ
  currency : String
  description : String
  status : String
  expires_at : ℚ
  wallet_address : String
  deriving DecidableEq, Repr

/-- The two tables of the embedded SQLite database. -/
structure DBState where
  transactions : List TransactionRow
  payment_forms : List FormRow
  deriving DecidableEq, Repr

/-- The status-message dictionary returned by process_payment_atomic. -/
structure PaymentResult where
  status : String
  message : String
  deriving DecidableEq, Repr

/-- DatabaseManager.create_payment_form (src/database.py lines 140-162):
inserts a pending row, returns false on a form_id uniqueness violation. -/
def db_create_payment_form (now : ℚ) (form_id : String) (amount : ℚ)
    (currency description wallet_address : String) (expires_hours : ℚ)
    (db : DBState) : Bool × DBState :=
  if db.payment_forms.any (fun f => f.form_id == form_id) then
    (false, db)
  else
    (true, { db with payment_forms := db.payment_forms ++
      [{ form_id := form_id, amount := amount, currency := currency,
         description := description, status := "pending",
         expires_at := now + expires_hours * 3600,
         wallet_address := wallet_address }] })

/-- The guarded status update of process_payment_atomic (UPDATE payment_forms
SET status = paid WHERE form_id = ? AND status = pending). -/
def setPaidRow (form_id : String) (g : FormRow) : FormRow :=
  if g.form_id == form_id && g.status == "pending" then
    { g with status := "paid" } else g

/-- DatabaseManager.process_payment_atomic (src/database.py lines 180-246),
one successful attempt of the serialized critical section.  Every abort
branch rolls back, returning the untouched state. -/
def process_payment_atomic (now : ℚ)
    (transaction_id from_address to_address : String) (amount : ℚ)
    (currency form_id : String) (db : DBState) : PaymentResult × DBState :=
  if db.transactions.any (fun t => t.transaction_id == transaction_id) then
    (⟨"error", "Transaction already processed"⟩, db)
  else
    match db.payment_forms.find?
        (fun f => f.form_id == form_id && f.status == "pending") with
    | none => (⟨"error", "Payment form not found or not pending"⟩, db)
    | some f =>
      if decide (f.expires_at < now) then
        (⟨"error", "Payment form expired"⟩, db)
      else if decide (amountTol < |amount - f.amount|) || currency != f.currency then
        (⟨"error", "Amount or currency mismatch"⟩, db)
      else
        let rowcount := (db.payment_forms.filter
          (fun g => g.form_id == form_id && g.status == "pending")).length
        if rowcount == 0 then
          (⟨"error", "Payment form was already processed"⟩, db)
        else
          (⟨"success", "Payment processed successfully"⟩,
           { db with
             transactions := db.transactions ++
               [⟨transaction_id, from_address, to_address, amount, currency,
                 "confirmed", some form_id⟩],
             payment_forms := db.payment_forms.map (setPaidRow form_id) })

/-- The per-row effect of the bulk expiry UPDATE (guarded by
status = pending AND expires_at <= now). -/
def expireRow (now : ℚ) (f : FormRow) : FormRow :=
  if f.status == "pending" && decide (f.expires_at ≤ now) then
    { f with status := "expired" } else f

/-- DatabaseManager.expire_old_forms (src/database.py lines 342-354):
bulk update of due pending forms, returning the number of rows changed. -/
def expire_old_forms (now : ℚ) (db : DBState) : ℕ × DBState :=
  ((db.payment_forms.filter
      (fun f => f.status == "pending" && decide (f.expires_at ≤ now))).length,
   { db with payment_forms := db.payment_forms.map (expireRow now) })

/-- The three Store operations claim C3 quantifies over. -/
inductive StoreOp where
  | create (now : ℚ) (form_id : String) (amount : ℚ)
      (currency description wallet_address : String) (expires_hours : ℚ)
  | settle (now : ℚ) (transaction_id from_address to_address : String)
      (amount : ℚ) (currency form_id : String)
  | expire (now : ℚ)

/-- State effect of one Store operation. -/
def applyStoreOp (op : StoreOp) (db : DBState) : DBState :=
  match op with
  | .create now fid amt cur d w h =>
      (db_create_payment_form now fid amt cur d w h db).2
  | .settle now tid fa ta amt cur fid =>
      (process_payment_atomic now tid fa ta amt cur fid db).2
  | .expire now => (expire_old_forms now db).2

/-- State effect of a sequence of Store operations. -/
def runStoreOps (ops : List StoreOp) (db : DBState) : DBState :=
  ops.foldl (fun s op => applyStoreOp op s) db

/-- The transition relation the spec allows for one form status. -/
def statusStep (s t : String) : Prop :=
  t = s ∨ (s = "pending" ∧ (t = "paid" ∨ t = "expired"))

theorem statusStep_refl (s : String) : statusStep s s := Or.inl rfl

theorem statusStep_trans {a b c : String} (h1 : statusStep a b)
    (h2 : statusStep b c) : statusStep a c := by
  rcases h1 with rfl | ⟨ha, hb⟩
  · exact h2
  · rcases h2 with rfl | ⟨hb', _⟩
    · exact Or.inr ⟨ha, hb⟩
    · rcases hb with rfl | rfl <;> simp at hb'

theorem setPaidRow_id (fid : String) (g : FormRow) :
    (setPaidRow fid g).form_id = g.form_id := by
  unfold setPaidRow; split <;> rfl

theorem setPaidRow_step (fid : String) (g : FormRow) :
    statusStep g.status (setPaidRow fid g).status := by
  unfold setPaidRow
  by_cases h : (g.form_id == fid && g.status == "pending") = true
  · have hs : g.status = "pending" := eq_of_beq ((Bool.and_eq_true _ _).mp h).2
    rw [if_pos h]
    exact Or.inr ⟨hs, Or.inl rfl⟩
  · rw [if_neg h]
    exact statusStep_refl _

theorem expireRow_id (now : ℚ) (f : FormRow) :
    (expireRow now f).form_id = f.form_id := by
  unfold expireRow; split <;> rfl

theorem expireRow_step (now : ℚ) (f : FormRow) :
    statusStep f.status (expireRow now f).status := by
  unfold expireRow
  by_cases h : (f.status == "pending" && decide (f.expires_at ≤ now)) = true
  · have hs : f.status = "pending" := eq_of_beq ((Bool.and_eq_true _ _).mp h).1
    rw [if_pos h]
    exact Or.inr ⟨hs, Or.inr rfl⟩
  · rw [if_neg h]
    exact statusStep_refl _

theorem applyStoreOp_forms_cases (op : StoreOp) (db : DBState) :
    (applyStoreOp op db).payment_forms = db.payment_forms
    ∨ (∃ x, (applyStoreOp op db).payment_forms = db.payment_forms ++ [x])
    ∨ (∃ fid, (applyStoreOp op db).payment_forms
          = db.payment_forms.map (setPaidRow fid))
    ∨ (∃ now, (applyStoreOp op db).payment_forms
          = db.payment_forms.map (expireRow now)) := by
  cases op with
  | create now fid amt cur d w hrs =>
      simp only [applyStoreOp, db_create_payment_form]
      split
      · exact Or.inl rfl
      · exact Or.inr (Or.inl ⟨_, rfl⟩)
  | settle now tid fa ta amt cur fid =>
      simp only [applyStoreOp, process_payment_atomic]
      split
      · exact Or.inl rfl
      · split
        · exact Or.inl rfl
        · split
          · exact Or.inl rfl
          · split
            · exact Or.inl rfl
            · split
              · exact Or.inl rfl
              · exact Or.inr (Or.inr (Or.inl ⟨fid, rfl⟩))
  | expire now =>
      exact Or.inr (Or.inr (Or.inr ⟨now, rfl⟩))

theorem applyStoreOp_form_step (op : StoreOp) (db : DBState) (i : ℕ)
    (g : FormRow) (h : db.payment_forms[i]? = some g) :
    ∃ g', (applyStoreOp op db).payment_forms[i]? = some g'
      ∧ g'.form_id = g.form_id ∧ statusStep g.status g'.status := by
  rcases applyStoreOp_forms_cases op db with heq | ⟨x, heq⟩ | ⟨fid, heq⟩ | ⟨now, heq⟩
  · exact ⟨g, by rw [heq, h], rfl, statusStep_refl _⟩
  · refine ⟨g, ?_, rfl, statusStep_refl _⟩
    rw [heq, List.getElem?_append_left (List.getElem?_eq_some.mp h).1, h]
  · refine ⟨setPaidRow fid g, ?_, setPaidRow_id fid g, setPaidRow_step fid g⟩
    rw [heq, List.getElem?_map, h]; rfl
  · refine ⟨expireRow now g, ?_, expireRow_id now g, expireRow_step now g⟩
    rw [heq, List.getElem?_map, h]; rfl

/-- C3: over any sequence of Store operations (create_payment_form,
process_payment_atomic, expire_old_forms), every payment_forms row keeps its
form_id, its status only ever moves along pending to paid or pending to
expired (in particular a paid form never becomes expired and an expired form
never becomes paid), and a status drawn from the set pending, paid, expired
stays in that set. -/
theorem store_status_transitions (ops : List StoreOp) (db : DBState) (i : ℕ)
    (g : FormRow) (h : db.payment_forms[i]? = some g) :
    ∃ g', (runStoreOps ops db).payment_forms[i]? = some g'
      ∧ g'.form_id = g.form_id
      ∧ statusStep g.status g'.status
      ∧ (g.status = "paid" → g'.status = "paid")
      ∧ (g.status = "expired" → g'.status = "expired")
      ∧ (g.status = "pending" ∨ g.status = "paid" ∨ g.status = "expired" →
          g'.status = "pending" ∨ g'.status = "paid" ∨ g'.status = "expired") := by
  have main : ∀ (ops : List StoreOp) (db : DBState) (i : ℕ) (g : FormRow),
      db.payment_forms[i]? = some g →
      ∃ g', (runStoreOps ops db).payment_forms[i]? = some g'
        ∧ g'.form_id = g.form_id ∧ statusStep g.status g'.status := by
    intro ops
    induction ops with
    | nil => exact fun db i g h => ⟨g, h, rfl, statusStep_refl _⟩
    | cons op rest ih =>
        intro db i g h
        obtain ⟨g1, h1, hid1, hs1⟩ := applyStoreOp_form_step op db i g h
        obtain ⟨g2, h2, hid2, hs2⟩ := ih (applyStoreOp op db) i g1 h1
        exact ⟨g2, h2, hid2.trans hid1, statusStep_trans hs1 hs2⟩
  obtain ⟨g', h', hid, hs⟩ := main ops db i g h
  refine ⟨g', h', hid, hs, ?_, ?_, ?_⟩
  · intro hp
    rcases hs with heq | ⟨hpend, _⟩
    · rw [heq]; exact hp
    · rw [hp] at hpend; simp at hpend
  · intro hp
    rcases hs with heq | ⟨hpend, _⟩
    · rw [heq]; exact hp
    · rw [hp] at hpend; simp at hpend
  · intro hset
    rcases hs with heq | ⟨_, h2 | h2⟩
    · rw [heq]; exact hset
    · exact Or.inr (Or.inl h2)
    · exact Or.inr (Or.inr h2)

/-- Closed witness for store_status_transitions: a two-operation history on a
one-form database. -/
theorem store_status_transitions_witness :
    ∃ g', (runStoreOps
        [StoreOp.settle 50 "tx1" "TSender" "TWallet" 5 "USDT" "f1",
         StoreOp.expire 500]
        { transactions := [],
          payment_forms := [⟨"f1", 5, "USDT", "", "pending", 100, "TWallet"⟩]
        }).payment_forms[0]? = some g'
      ∧ g'.form_id = "f1"
      ∧ statusStep "pending" g'.status
      ∧ ("pending" = "paid" → g'.status = "paid")
      ∧ ("pending" = "expired" → g'.status = "expired")
      ∧ (("pending" : String) = "pending" ∨ ("pending" : String) = "paid"
            ∨ ("pending" : String) = "expired" →
          g'.status = "pending" ∨ g'.status = "paid" ∨ g'.status = "expired") :=
  store_status_transitions
    [StoreOp.settle 50 "tx1" "TSender" "TWallet" 5 "USDT" "f1",
     StoreOp.expire 500]
    { transactions := [],
      payment_forms := [⟨"f1", 5, "USDT", "", "pending", 100, "TWallet"⟩] }
    0 ⟨"f1", 5, "USDT", "", "pending", 100, "TWallet"⟩ rfl

/-- C2: a settle_atomic call whose transaction_id already has a transactions
row returns the already-processed error and leaves both tables untouched; in
particular a second call repeating an earlier successful settlement does. -/
theorem process_payment_atomic_already_processed (now : ℚ)
    (transaction_id from_address to_address : String) (amount : ℚ)
    (currency form_id : String) (db : DBState)
    (h : ∃ t ∈ db.transactions, t.transaction_id = transaction_id) :
    process_payment_atomic now transaction_id from_address to_address amount
        currency form_id db
      = (⟨"error", "Transaction already processed"⟩, db) := by
  obtain ⟨t, ht, hid⟩ := h
  have hany : db.transactions.any
      (fun t => t.transaction_id == transaction_id) = true := by
    rw [List.any_eq_true]
    exact ⟨t, ht, by rw [hid]; exact beq_self_eq_true _⟩
  unfold process_payment_atomic
  rw [if_pos hany]

/-- Closed witness for C2: the state is the one reached by a successful first
settlement, and the repeated call aborts with already_processed leaving it
unchanged. -/
theorem process_payment_atomic_already_processed_witness :
    process_payment_atomic 50 "ab12" "TSender" "TWallet" 5 "USDT" "f1"
        (process_payment_atomic 50 "ab12" "TSender" "TWallet" 5 "USDT" "f1"
          { transactions := [],
            payment_forms := [⟨"f1", 5, "USDT", "", "pending", 100, "TWallet"⟩] }).2
      = (⟨"error", "Transaction already processed"⟩,
         (process_payment_atomic 50 "ab12" "TSender" "TWallet" 5 "USDT" "f1"
          { transactions := [],
            payment_forms := [⟨"f1", 5, "USDT", "", "pending", 100, "TWallet"⟩] }).2) :=
  process_payment_atomic_already_processed 50 "ab12" "TSender" "TWallet" 5
    "USDT" "f1" _
    ⟨⟨"ab12", "TSender", "TWallet", 5, "USDT", "confirmed", some "f1"⟩,
     by norm_num [process_payment_atomic, amountTol, List.find?], rfl⟩

theorem expireRow_not_due (now : ℚ) (f : FormRow) :
    ((expireRow now f).status == "pending"
      && decide ((expireRow now f).expires_at ≤ now)) = false := by
  unfold expireRow
  by_cases h : (f.status == "pending" && decide (f.expires_at ≤ now)) = true
  · rw [if_pos h]; rfl
  · rw [if_neg h]
    exact Bool.not_eq_true _ |>.mp h

theorem expireRow_idem (now : ℚ) (f : FormRow) :
    expireRow now (expireRow now f) = expireRow now f := by
  have h := expireRow_not_due now f
  conv_lhs => rw [expireRow]
  rw [h]
  rfl

theorem expireRow_filter_nil (now : ℚ) (l : List FormRow) :
    (l.map (expireRow now)).filter
      (fun f => f.status == "pending" && decide (f.expires_at ≤ now)) = [] := by
  induction l with
  | nil => rfl
  | cons f fs ih => simp [List.filter_cons, expireRow_not_due now f, ih]

theorem expireRow_map_idem (now : ℚ) (l : List FormRow) :
    (l.map (expireRow now)).map (expireRow now) = l.map (expireRow now) := by
  induction l with
  | nil => rfl
  | cons f fs ih => simp only [List.map_cons, expireRow_idem now f, ih]

/-- C7: expire_old_forms marks expired exactly the pending rows whose
expires_at is at most now (all other rows and the transactions table are
untouched), returns the number of rows changed, and a second application at
the same now changes nothing and returns zero. -/
theorem expire_old_forms_spec (now : ℚ) (db : DBState) :
    (expire_old_forms now db).1
        = (db.payment_forms.filter
            (fun f => f.status == "pending" && decide (f.expires_at ≤ now))).length
    ∧ (expire_old_forms now db).2.transactions = db.transactions
    ∧ (expire_old_forms now db).2.payment_forms
        = db.payment_forms.map (fun f =>
            if f.status == "pending" && decide (f.expires_at ≤ now) then
              { f with status := "expired" } else f)
    ∧ expire_old_forms now (expire_old_forms now db).2
        = (0, (expire_old_forms now db).2) := by
  refine ⟨rfl, rfl, rfl, ?_⟩
  unfold expire_old_forms
  simp only [expireRow_filter_nil, expireRow_map_idem, List.length_nil]

/-- Python str.lower as used on TRON addresses (ASCII case folding). -/
def strLower (s : String) : String := ⟨s.data.map Char.toLower⟩

/-- Python str.upper as used on descriptions (ASCII case folding). -/
def strUpper (s : String) : String := ⟨s.data.map Char.toUpper⟩

/-- Python str.strip: whitespace removed from both ends. -/
def strStrip (s : String) : String :=
  ⟨((s.data.dropWhile Char.isWhitespace).reverse.dropWhile
      Char.isWhitespace).reverse⟩

/-- PaymentProcessor.OFFICIAL_USDT_CONTRACT (src/payment_processor.py line 55). -/
def OFFICIAL_USDT_CONTRACT : String := "TR7NHqjeKQxGTCi8q8ZY4pL8otSzgjLj6t"

/-- PaymentProcessor._validate_tron_address (lines 178-191): 34 characters,
a capital T followed by 33 ASCII alphanumerics, and not the all-zero
literal of the source (which is 35 characters long, so that final test can
never fire after the length check). -/
def validate_tron_address (address : String) : Bool :=
  address.length == 34 &&
  (match address.data with
   | c :: rest => c == 'T' && rest.all (fun ch => ch.isAlphanum)
   | [] => false) &&
  address != "T0000000000000000000000000000000000"

/-- The trc20_transfer payload embedded in an explorer envelope, with the
dictionary-get defaults resolved into the fields.  quant holds the float
parse of the quant string, none when unparseable; tokenAbbr defaults to
UNKNOWN, tokenDecimal to 6 and contract_address to the empty string. -/
structure Trc20Transfer where
  quant : Option ℚ
  from_address : String
  to_address : String
  tokenAbbr : String
  tokenDecimal : ℤ
  contract_address : String
  deriving DecidableEq, Repr

/-- One entry of trc20TransferInfo as read by _validate_usdt_contract:
tokenInfo.tokenId, default empty. -/
structure TransferInfoEntry where
  tokenId : String
  deriving DecidableEq, Repr

/-- The dictionary shape inspected by _validate_usdt_contract: a currency
plus the two optional transfer payload keys. -/
structure ValTx where
  currency : String
  trc20_transfer : Option Trc20Transfer
  trc20TransferInfo : Option (List TransferInfoEntry)
  deriving DecidableEq, Repr

/-- PaymentProcessor._validate_usdt_contract (lines 305-336).  When the
envelope key trc20_transfer is present the function returns inside that
branch and trc20TransferInfo is never inspected. -/
def validate_usdt_contract (tx : ValTx) : Bool :=
  if tx.currency != "USDT" then true
  else
    match tx.trc20_transfer with
    | some d =>
        if d.contract_address == OFFICIAL_USDT_CONTRACT then true
        else if d.contract_address != "" then false
        else true
    | none =>
        match tx.trc20TransferInfo with
        | some transfers =>
            transfers.all (fun t =>
              !(t.tokenId != "" && t.tokenId != OFFICIAL_USDT_CONTRACT))
        | none => true

/-- C5 counterexample: a USDT record whose envelope transfer carries the
official contract but whose trc20TransferInfo contains a transfer under a
different contract address passes validation, because the details are never
inspected once the envelope key exists. -/
theorem validate_usdt_contract_claim_false :
    validate_usdt_contract
      { currency := "USDT",
        trc20_transfer := some
          ⟨some 5, "TSender", "TWallet", "USDT", 6, OFFICIAL_USDT_CONTRACT⟩,
        trc20TransferInfo := some [⟨"TFakeContractAAAAAAAAAAAAAAAAAAAAA"⟩] }
      = true
    ∧ ("TFakeContractAAAAAAAAAAAAAAAAAAAAA" : String)
        ≠ OFFICIAL_USDT_CONTRACT := by
  exact ⟨rfl, by decide⟩

/-- C5 amended: for a USDT record, when the envelope carries trc20_transfer
validation passes exactly when that one contract address is official or
empty (the fetched details are ignored); without the envelope key it passes
exactly when every trc20TransferInfo entry has an official or empty
tokenId; with neither key it passes vacuously. -/
theorem validate_usdt_contract_spec (tx : ValTx) (h : tx.currency = "USDT") :
    validate_usdt_contract tx = true ↔
      (match tx.trc20_transfer with
       | some d => d.contract_address = OFFICIAL_USDT_CONTRACT
            ∨ d.contract_address = ""
       | none =>
          match tx.trc20TransferInfo with
          | some transfers => ∀ t ∈ transfers,
              t.tokenId = OFFICIAL_USDT_CONTRACT ∨ t.tokenId = ""
          | none => True) := by
  obtain ⟨cur, tr, info⟩ := tx
  simp only at h
  subst h
  cases tr with
  | some d =>
      by_cases h1 : d.contract_address = OFFICIAL_USDT_CONTRACT
      · simp [validate_usdt_contract, h1]
      · by_cases h2 : d.contract_address = ""
        · simp [validate_usdt_contract, h1, h2]
        · simp [validate_usdt_contract, h1, h2]
  | none =>
      cases info with
      | none => simp [validate_usdt_contract]
      | some ts =>
          simp only [validate_usdt_contract, bne_self_eq_false,
            Bool.false_eq_true, if_false, List.all_eq_true]
          constructor
          · intro hall t ht
            have := hall t ht
            by_cases h1 : t.tokenId = ""
            · exact Or.inr h1
            · by_cases h2 : t.tokenId = OFFICIAL_USDT_CONTRACT
              · exact Or.inl h2
              · simp [h1, h2] at this
          · intro hall t ht
            rcases hall t ht with h1 | h1 <;> simp [h1]

/-- Closed witness for validate_usdt_contract_spec at a record without the
envelope key and one official detail transfer. -/
theorem validate_usdt_contract_spec_witness :
    validate_usdt_contract
      { currency := "USDT", trc20_transfer := none,
        trc20TransferInfo := some [⟨"TR7NHqjeKQxGTCi8q8ZY4pL8otSzgjLj6t"⟩] }
      = true ↔
      (∀ t ∈ [(⟨"TR7NHqjeKQxGTCi8q8ZY4pL8otSzgjLj6t"⟩ : TransferInfoEntry)],
        t.tokenId = OFFICIAL_USDT_CONTRACT ∨ t.tokenId = "") :=
  validate_usdt_contract_spec
    { currency := "USDT", trc20_transfer := none,
      trc20TransferInfo := some [⟨"TR7NHqjeKQxGTCi8q8ZY4pL8otSzgjLj6t"⟩] } rfl

/-- PaymentProcessor.generate_payment_url (lines 620-633) on a stored form:
amount is the decimal rendering the f-string interpolates for the stored
perturbed amount, wallet_address the merchant wallet. -/
def generate_payment_url (wallet_address amount currency : String) : String :=
  if currency == "TRX" then
    "tronlink://send?address=" ++ wallet_address ++ "&amount=" ++ amount
  else if currency == "USDT" then
    "tronlink://send?address=" ++ wallet_address ++ "&amount=" ++ amount
      ++ "&token=" ++ OFFICIAL_USDT_CONTRACT
  else
    "tronlink://send?address=" ++ wallet_address ++ "&amount=" ++ amount
      ++ "&token=" ++ currency

/-- PaymentProcessor.generate_payment_qr_data (lines 635-648). -/
def generate_payment_qr_data (wallet_address amount currency : String) :
    String :=
  if currency == "TRX" then
    "tron:" ++ wallet_address ++ "?amount=" ++ amount
  else if currency == "USDT" then
    "tron:" ++ wallet_address ++ "?amount=" ++ amount
      ++ "&token=" ++ OFFICIAL_USDT_CONTRACT
  else
    "tron:" ++ wallet_address ++ "?amount=" ++ amount ++ "&token=" ++ currency

/-- C8: the TRX payment deep link and QR payload have exactly the documented
shapes, and for USDT both are exactly the TRX shapes with the official USDT
token parameter appended. -/
theorem payment_url_formats (W A : String) :
    generate_payment_url W A "TRX"
        = "tronlink://send?address=" ++ W ++ "&amount=" ++ A
    ∧ generate_payment_qr_data W A "TRX" = "tron:" ++ W ++ "?amount=" ++ A
    ∧ generate_payment_url W A "USDT"
        = generate_payment_url W A "TRX" ++ "&token="
            ++ "TR7NHqjeKQxGTCi8q8ZY4pL8otSzgjLj6t"
    ∧ generate_payment_qr_data W A "USDT"
        = generate_payment_qr_data W A "TRX" ++ "&token="
            ++ "TR7NHqjeKQxGTCi8q8ZY4pL8otSzgjLj6t" :=
  ⟨rfl, rfl, rfl, rfl⟩

/-- An explorer transaction envelope as consumed by the monitoring loop,
with the dictionary-get defaults resolved: hash defaults to the empty
string, timestamp to 0 and confirmed to true. -/
structure TxData where
  hash : String
  timestamp : ℤ
  confirmed : Bool
  contractType : ℤ
  trc20_transfer : Option Trc20Transfer
  deriving DecidableEq, Repr

/-- The canonical record produced by _parse_transaction_fast. -/
structure ParsedTx where
  transaction_id : String
  from_address : String
  to_address : String
  amount : ℚ
  currency : String
  timestamp : ℤ
  confirmed : Bool
  deriving DecidableEq, Repr

/-- PaymentProcessor._parse_transaction_fast (lines 889-923): only envelopes
embedding a trc20_transfer payload parse, and only when the quant string
parses as a number; everything else returns none. -/
def parse_transaction_fast (tx : TxData) : Option ParsedTx :=
  match tx.trc20_transfer with
  | none => none
  | some tr =>
    match tr.quant with
    | none => none
    | some q =>
      let amount := if decide (0 < tr.tokenDecimal) then
        q / (10 : ℚ) ^ tr.tokenDecimal.toNat else q
      some { transaction_id := tx.hash, from_address := tr.from_address,
             to_address := tr.to_address, amount := amount,
             currency := tr.tokenAbbr,
             timestamp := if decide (tx.timestamp < 1000000000000) then
               tx.timestamp * 1000 else tx.timestamp,
             confirmed := tx.confirmed }

/-- Configuration inputs of the transfer validators: the merchant wallet,
the blacklist environment variable already split on commas, the clock in
milliseconds and the age and future-tolerance windows (source defaults two
hours and five minutes). -/
structure ValidationEnv where
  wallet_address : String
  blacklisted_addresses : List String
  now_ms : ℤ
  max_age_ms : ℤ
  future_tolerance_ms : ℤ
  deriving Repr

/-- PaymentProcessor._validate_sender_address (lines 240-253). -/
def validate_sender_address (env : ValidationEnv) (from_address : String) :
    Bool :=
  validate_tron_address from_address &&
  !(((env.blacklisted_addresses.filter (fun a => strStrip a != "")).map
      (fun a => strStrip (strLower a))).contains (strLower from_address)) &&
  strLower from_address != strLower env.wallet_address

/-- PaymentProcessor._validate_transaction_timestamp (lines 255-274). -/
def validate_transaction_timestamp (env : ValidationEnv) (tx_timestamp : ℤ) :
    Bool :=
  !(decide (env.max_age_ms < env.now_ms - tx_timestamp)) &&
  !(decide (env.now_ms + env.future_tolerance_ms < tx_timestamp))

/-- The parsed record viewed as the dictionary handed to
_validate_usdt_contract on the fast path: it carries neither a
trc20_transfer nor a trc20TransferInfo key. -/
def ParsedTx.toValTx (p : ParsedTx) : ValTx :=
  { currency := p.currency, trc20_transfer := none,
    trc20TransferInfo := none }

/-- PaymentProcessor._validate_transaction_fast (lines 925-936). -/
def validate_transaction_fast (env : ValidationEnv) (p : ParsedTx) : Bool :=
  validate_sender_address env p.from_address &&
  validate_transaction_timestamp env p.timestamp &&
  (if p.currency == "USDT" then validate_usdt_contract p.toValTx else true)

/-- The scan of PaymentProcessor._filter_new_transactions (lines 772-787):
every envelope with a nonempty hash not yet in the processed set is added
to the set and kept for the batch.  The set is modelled as a list with the
latest insertion at the head. -/
def filter_new_transactions_loop (processed : List String) :
    List TxData → List TxData × List String
  | [] => ([], processed)
  | tx :: rest =>
    if tx.hash != "" then
      if processed.contains tx.hash then
        filter_new_transactions_loop processed rest
      else
        let r := filter_new_transactions_loop (tx.hash :: processed) rest
        (tx :: r.1, r.2)
    else filter_new_transactions_loop processed rest

/-- Cache bound of the processed-transactions set (line 85). -/
def maxProcessedTransactions : ℕ := 10000

/-- PaymentProcessor._filter_new_transactions (lines 772-787) including the
over-bound trim, which discards 5000 entries of the set in the unspecified
iteration order of a Python set; the model discards the 5000 oldest entries
of the modelled list. -/
def filter_new_transactions (processed : List String) (txs : List TxData) :
    List TxData × List String :=
  let r := filter_new_transactions_loop processed txs
  if decide (maxProcessedTransactions < r.2.length) then
    (r.1, r.2.take (r.2.length - 5000))
  else r

/-- PaymentProcessor._check_form_against_transactions_optimized (lines
843-887), the scan of one worker against one form: returns the envelope on
which settlement (_process_payment) is invoked, or none when the scan falls
through.  dbTxIds lists the transaction_ids already present in the
transactions table, and the processed set is threaded because the
database-hit branch inserts into it. -/
def check_form_against_transactions_optimized (env : ValidationEnv)
    (dbTxIds : List String) (form_amount : ℚ) (form_currency : String)
    (processed : List String) : List TxData → Option TxData
  | [] => none
  | tx :: rest =>
    if processed.contains tx.hash then
      check_form_against_transactions_optimized env dbTxIds form_amount
        form_currency processed rest
    else if dbTxIds.contains tx.hash then
      check_form_against_transactions_optimized env dbTxIds form_amount
        form_currency (tx.hash :: processed) rest
    else
      match parse_transaction_fast tx with
      | none => check_form_against_transactions_optimized env dbTxIds
          form_amount form_currency processed rest
      | some p =>
        if decide (|p.amount - form_amount| < amountTol)
            && p.currency == form_currency
            && strLower p.to_address == strLower env.wallet_address
            && p.confirmed then
          if validate_transaction_fast env p then some tx
          else check_form_against_transactions_optimized env dbTxIds
            form_amount form_currency processed rest
        else check_form_against_transactions_optimized env dbTxIds
          form_amount form_currency processed rest

/-- C9: an envelope without the trc20_transfer key never parses on the fast
path, and a batch of such envelopes (for example native TRX transfers) can
never make the worker scan invoke settlement. -/
theorem check_form_no_parse_none (env : ValidationEnv)
    (dbTxIds : List String) (form_amount : ℚ) (form_currency : String)
    (txs : List TxData) (h : ∀ tx ∈ txs, tx.trc20_transfer = none) :
    ∀ processed, check_form_against_transactions_optimized env dbTxIds
      form_amount form_currency processed txs = none := by
  induction txs with
  | nil => intro processed; rfl
  | cons tx rest ih =>
      intro processed
      have hrest : ∀ t ∈ rest, t.trc20_transfer = none :=
        fun t ht => h t (List.mem_cons_of_mem tx ht)
      have hp : parse_transaction_fast tx = none := by
        unfold parse_transaction_fast
        rw [h tx (List.mem_cons_self tx rest)]
      unfold check_form_against_transactions_optimized
      rw [hp]
      by_cases h1 : processed.contains tx.hash
      · rw [if_pos h1]
        exact ih hrest processed
      · rw [if_neg h1]
        by_cases h2 : dbTxIds.contains tx.hash
        · rw [if_pos h2]
          exact ih hrest (tx.hash :: processed)
        · rw [if_neg h2]
          exact ih hrest processed

theorem parse_transaction_fast_requires_trc20 (env : ValidationEnv)
    (dbTxIds : List String) (form_amount : ℚ) (form_currency : String)
    (processed : List String) (txs : List TxData)
    (h : ∀ tx ∈ txs, tx.trc20_transfer = none) :
    (∀ tx ∈ txs, parse_transaction_fast tx = none)
    ∧ check_form_against_transactions_optimized env dbTxIds form_amount
        form_currency processed txs = none := by
  refine ⟨?_, check_form_no_parse_none env dbTxIds form_amount form_currency
    txs h processed⟩
  intro tx htx
  unfold parse_transaction_fast
  rw [h tx htx]

/-- A demonstration merchant wallet: 34 characters, T then alphanumerics. -/
def demoWallet : String := "TABCDEFGHIJKLMNOPQRSTUVWXYZabcdef1"

/-- A demonstration sender address distinct from the wallet. -/
def demoSender : String := "TSenderAAAAAAAAAAAAAAAAAAAAAAAAA77"

/-- Demonstration validation environment: empty blacklist, clock equal to
the transfer timestamp, source-default two-hour age window and five-minute
future tolerance. -/
def demoEnv : ValidationEnv :=
  { wallet_address := demoWallet, blacklisted_addresses := [],
    now_ms := 1700000000000, max_age_ms := 7200000,
    future_tolerance_ms := 300000 }

/-- A genuine confirmed transfer of 5 USDT to the merchant wallet under the
official contract (token decimals zero, so the parsed amount is the quant
itself). -/
def genuineTx : TxData :=
  { hash := "ab01ab01ab01ab01ab01ab01ab01ab01ab01ab01ab01ab01ab01ab01ab01ab01",
    timestamp := 1700000000000, confirmed := true, contractType := 31,
    trc20_transfer := some
      { quant := some 5, from_address := demoSender,
        to_address := demoWallet, tokenAbbr := "USDT", tokenDecimal := 0,
        contract_address := OFFICIAL_USDT_CONTRACT } }

/-- C1 (code bug): _filter_new_transactions records every hash of the fresh
batch in the processed-transactions set, and the worker scan skips every
transfer whose hash is in that same set, so settlement is never invoked for
a freshly deduplicated batch.  Shown on a genuine matching confirmed USDT
transfer against a matching pending form: the batch keeps the transfer, the
scan over the batch settles nothing, yet the very same scan run without the
poisoned set would settle exactly this transfer. -/
theorem monitor_cycle_never_settles :
    (filter_new_transactions [] [genuineTx]).1 = [genuineTx]
    ∧ check_form_against_transactions_optimized demoEnv [] 5 "USDT"
        (filter_new_transactions [] [genuineTx]).2
        (filter_new_transactions [] [genuineTx]).1 = none
    ∧ check_form_against_transactions_optimized demoEnv [] 5 "USDT" []
        (filter_new_transactions [] [genuineTx]).1 = some genuineTx := by
  have hamt : (decide ((|(5 : ℚ) - 5|) < amountTol)) = true := by
    rw [decide_eq_true_eq]; norm_num [amountTol]
  refine ⟨rfl, rfl, ?_⟩
  have h2 : parse_transaction_fast genuineTx
      = some ⟨genuineTx.hash, demoSender, demoWallet, 5, "USDT",
          1700000000000, true⟩ := rfl
  simp only [check_form_against_transactions_optimized, h2, hamt]
  decide

/-- Closed witness for C9 at a native TRX transfer envelope. -/
theorem parse_transaction_fast_requires_trc20_witness :
    (∀ tx ∈ [(⟨"aa", 1700000000000, true, 1, none⟩ : TxData)],
        parse_transaction_fast tx = none)
    ∧ check_form_against_transactions_optimized demoEnv [] 5 "TRX" []
        [(⟨"aa", 1700000000000, true, 1, none⟩ : TxData)] = none :=
  parse_transaction_fast_requires_trc20 demoEnv [] 5 "TRX" []
    [⟨"aa", 1700000000000, true, 1, none⟩]
    (by intro tx htx; rw [List.mem_singleton] at htx; rw [htx])

/-- A raw record of the native-transfer list endpoint; hash and timestamp
are optional because _validate_transaction_data first checks key presence. -/
structure RawApiTx where
  hash : Option String
  timestamp : Option ℤ
  deriving DecidableEq, Repr

/-- ASCII hexadecimal digit. -/
def isHexDigitChar (c : Char) : Bool :=
  c.isDigit || ('a' ≤ c && c ≤ 'f') || ('A' ≤ c && c ≤ 'F')

/-- Continuation of a hex digit run for the Python int(s, 16) grammar:
single underscores are permitted between digits. -/
def hexDigitsRest : List Char → Bool
  | [] => true
  | '_' :: c :: cs => isHexDigitChar c && hexDigitsRest cs
  | '_' :: [] => false
  | c :: cs => isHexDigitChar c && hexDigitsRest cs

/-- A nonempty hex digit run with single internal underscores. -/
def hexDigitsOk : List Char → Bool
  | c :: cs => isHexDigitChar c && hexDigitsRest cs
  | [] => false

/-- Digits with an optional 0x or 0X prefix (an underscore may follow the
prefix), per the Python int(s, 16) grammar. -/
def hexBodyOk (l : List Char) : Bool :=
  match l with
  | '0' :: x :: rest =>
      if x == 'x' || x == 'X' then
        (match rest with
         | '_' :: rest2 => hexDigitsOk rest2
         | _ => hexDigitsOk rest)
      else hexDigitsOk l
  | _ => hexDigitsOk l

/-- Acceptance of Python int(s, 16) used by _validate_transaction_data:
surrounding whitespace stripped, an optional sign, then the hex body. -/
def pyIntBase16Ok (s : String) : Bool :=
  match (strStrip s).data with
  | '+' :: rest => hexBodyOk rest
  | '-' :: rest => hexBodyOk rest
  | l => hexBodyOk l

/-- TronScanAPI._validate_transaction_data (src/tronscan_api.py lines
182-212): both keys present, a 64-character hash accepted by int(hash, 16),
and a millisecond timestamp no older than 365 days and no more than one day
in the future of the clock. -/
def validate_transaction_data (now_ms : ℤ) (tx : RawApiTx) : Bool :=
  match tx.hash, tx.timestamp with
  | some h, some ts =>
      h.length == 64 && pyIntBase16Ok h &&
      !(decide (ts < now_ms - 365 * 24 * 60 * 60 * 1000)) &&
      !(decide (now_ms + 24 * 60 * 60 * 1000 < ts))
  | _, _ => false

/-- TronScanAPI.get_account_transactions (lines 214-268) from the decoded
response data list to the returned list; transport, caching and rate
limiting are outside the model. -/
def get_account_transactions (now_ms : ℤ) (data : List RawApiTx) :
    List RawApiTx :=
  data.filter (validate_transaction_data now_ms)

/-- One element of the decoded TRC-20 transfers response: the fields the
wrapping loop reads, plus the same dictionary viewed through the fields the
parser later reads (payload). -/
structure RawTrc20Transfer where
  transaction_id : String
  block_ts : ℤ
  payload : Trc20Transfer
  deriving DecidableEq, Repr

/-- The synthetic envelope built for each transfer by get_trc20_transfers. -/
def wrapTrc20 (t : RawTrc20Transfer) : TxData :=
  { hash := t.transaction_id, timestamp := t.block_ts, confirmed := true,
    contractType := 31, trc20_transfer := some t.payload }

/-- TronScanAPI.get_trc20_transfers (lines 270-329) from the decoded
transfers list to the returned list: every transfer is wrapped and kept,
with no hash or timestamp validation. -/
def get_trc20_transfers (transfers : List RawTrc20Transfer) : List TxData :=
  transfers.map wrapTrc20

/-- C6 counterexample: the TRC-20 list endpoint returns a record whose hash
is the 3-character string xyz and whose timestamp is far outside the
accepted window, because that endpoint validates nothing. -/
theorem get_trc20_transfers_claim_false :
    ∃ tx ∈ get_trc20_transfers
        [⟨"xyz", 0, ⟨some 5, demoSender, demoWallet, "USDT", 6,
            OFFICIAL_USDT_CONTRACT⟩⟩],
      tx.hash = "xyz" ∧ tx.hash.length ≠ 64 :=
  ⟨wrapTrc20 ⟨"xyz", 0, ⟨some 5, demoSender, demoWallet, "USDT", 6,
      OFFICIAL_USDT_CONTRACT⟩⟩,
   List.mem_singleton.mpr rfl, rfl, by decide⟩

/-- C6 amended: only the native-transfer endpoint filters records through
_validate_transaction_data — every record it returns has a present
64-character hash accepted by the hex parse and a timestamp within 365 days
behind and one day ahead of the clock, and is drawn from the response — while
the TRC-20 endpoint wraps and returns every transfer of the response with no
hash or timestamp validation. -/
theorem list_endpoint_validation (now_ms : ℤ) (data : List RawApiTx)
    (transfers : List RawTrc20Transfer) :
    (∀ tx ∈ get_account_transactions now_ms data,
      ∃ h ts, tx.hash = some h ∧ tx.timestamp = some ts
        ∧ h.length = 64 ∧ pyIntBase16Ok h = true
        ∧ now_ms - 365 * 24 * 60 * 60 * 1000 ≤ ts
        ∧ ts ≤ now_ms + 24 * 60 * 60 * 1000)
    ∧ (∀ tx ∈ get_account_transactions now_ms data, tx ∈ data)
    ∧ get_trc20_transfers transfers = transfers.map wrapTrc20 := by
  refine ⟨?_, ?_, rfl⟩
  · intro tx htx
    rw [get_account_transactions, List.mem_filter] at htx
    obtain ⟨_, hval⟩ := htx
    unfold validate_transaction_data at hval
    cases hh : tx.hash with
    | none =>
        rw [hh] at hval
        cases tx.timestamp <;> simp at hval
    | some h =>
        cases ht : tx.timestamp with
        | none => rw [hh, ht] at hval; simp at hval
        | some ts =>
            rw [hh, ht] at hval
            simp only [Bool.and_eq_true, Bool.not_eq_true',
              decide_eq_false_iff_not, not_lt, beq_iff_eq] at hval
            exact ⟨h, ts, rfl, rfl, hval.1.1.1, hval.1.1.2, hval.1.2,
              hval.2⟩
  · intro tx htx
    exact (List.mem_filter.mp htx).1

/-- Closed witness for list_endpoint_validation at a one-record response. -/
theorem list_endpoint_validation_witness :
    ∃ h ts,
      (⟨some "ab01ab01ab01ab01ab01ab01ab01ab01ab01ab01ab01ab01ab01ab01ab01ab01",
        some 0⟩ : RawApiTx).hash = some h
      ∧ (⟨some "ab01ab01ab01ab01ab01ab01ab01ab01ab01ab01ab01ab01ab01ab01ab01ab01",
          some 0⟩ : RawApiTx).timestamp = some ts
      ∧ h.length = 64 ∧ pyIntBase16Ok h = true
      ∧ (0 : ℤ) - 365 * 24 * 60 * 60 * 1000 ≤ ts
      ∧ ts ≤ (0 : ℤ) + 24 * 60 * 60 * 1000 :=
  (list_endpoint_validation 0
      [⟨some "ab01ab01ab01ab01ab01ab01ab01ab01ab01ab01ab01ab01ab01ab01ab01ab01",
        some 0⟩] []).1
    ⟨some "ab01ab01ab01ab01ab01ab01ab01ab01ab01ab01ab01ab01ab01ab01ab01ab01",
      some 0⟩ (by decide)

/-- The pending-transactions loop of _get_recent_transaction_amounts
(lines 437-441): appends currency-matching amounts and breaks once the
accumulated list reaches 20 entries. -/
def collectPendingTxAmounts (currency : String) (acc : List ℚ) :
    List TransactionRow → List ℚ
  | [] => acc
  | t :: ts =>
    if t.currency == currency then
      let acc2 := acc ++ [t.amount]
      if decide (20 ≤ acc2.length) then acc2
      else collectPendingTxAmounts currency acc2 ts
    else collectPendingTxAmounts currency acc ts

/-- PaymentProcessor._get_recent_transaction_amounts (lines 425-446):
amounts of currency-matching active forms (no cap), then pending
transaction amounts appended under the length-20 break. -/
def get_recent_transaction_amounts (currency : String)
    (active_forms : List FormRow) (pending_txs : List TransactionRow) :
    List ℚ :=
  collectPendingTxAmounts currency
    ((active_forms.filter (fun f => f.currency == currency)).map
      (fun f => f.amount)) pending_txs

/-- The uniqueness test of the _generate_unique_amount attempt loop: the
candidate is not an element of the collision list and no element lies
strictly closer than the 1e-4 tolerance.  The source compares binary64
floats; within a float ulp of the tolerance the float comparison can
resolve either way relative to this exact-rational one, so the theorems
below read this test only through its membership conjunct (equal floats
compute distance exactly zero, where float and exact arithmetic agree) and
evaluate it only on inputs whose arithmetic is exact in binary64. -/
def amountIsUnique (a : ℚ) (recent : List ℚ) : Bool :=
  !(recent.any (fun r => decide (r = a))) &&
  recent.all (fun r => !(decide (|a - r| < amountTol)))

/-- The attempt loop of _generate_unique_amount (lines 482-498), the
randbelow(9999) draws passed as a stream: each draw k yields the addition
k/10000 bumped to 1/10000 when below it, and the first candidate passing
the uniqueness test is returned. -/
def generate_unique_amount_loop (base : ℚ) (recent : List ℚ) :
    List ℕ → Option ℚ
  | [] => none
  | k :: ks =>
    let addition : ℚ :=
      if decide ((k : ℚ) / 10000 < 1/10000) then 1/10000 else (k : ℚ) / 10000
    let final := round4 (base + addition)
    if amountIsUnique final recent then some final
    else generate_unique_amount_loop base recent ks

/-- PaymentProcessor._generate_unique_amount (lines 478-503): up to 100
attempts, then the uniform fallback suffix (drawn from [0.0001, 0.9999]) is
used unconditionally. -/
def generate_unique_amount (base : ℚ) (recent : List ℚ) (draws : List ℕ)
    (fallback : ℚ) : ℚ :=
  match generate_unique_amount_loop base recent (draws.take 100) with
  | some a => a
  | none => round4 (base + fallback)

/-- PaymentProcessor._check_recent_transactions (lines 505-524): the base
amount must differ by at least 0.01 from every local and on-chain recent
amount. -/
def check_recent_transactions (amount : ℚ)
    (local_amounts chain_amounts : List ℚ) : Bool :=
  local_amounts.all (fun r => !(decide (|amount - r| < 1/100))) &&
  chain_amounts.all (fun r => !(decide (|amount - r| < 1/100)))

theorem round4_fix (z : ℤ) : round4 ((z : ℚ) / 10000) = (z : ℚ) / 10000 := by
  unfold round4
  rw [show ((z : ℚ) / 10000 * 10000) = (z : ℚ) by field_simp, round_intCast]

theorem round4_grid {q : ℚ} (h : round4 q = q) :
    ∃ z : ℤ, q = (z : ℚ) / 10000 := by
  exact ⟨round (q * 10000), h.symm⟩

theorem round4_mono {a b : ℚ} (h : a ≤ b) : round4 a ≤ round4 b := by
  unfold round4
  have h3 : round (a * 10000) ≤ round (b * 10000) := by
    rw [round_eq, round_eq]
    exact Int.floor_le_floor (by nlinarith)
  have h4 : ((round (a * 10000) : ℤ) : ℚ) ≤ ((round (b * 10000) : ℤ) : ℚ) :=
    Int.cast_le.mpr h3
  exact div_le_div_of_nonneg_right h4 (by norm_num) |>.trans_eq rfl

theorem amountIsUnique_ne (a : ℚ) (recent : List ℚ)
    (h : amountIsUnique a recent = true) :
    ∀ r ∈ recent, a ≠ r := by
  unfold amountIsUnique at h
  obtain ⟨h1, _⟩ := (Bool.and_eq_true _ _).mp h
  intro r hr heq
  rw [Bool.not_eq_true'] at h1
  have h2 := List.any_eq_true.not.mp (by rw [h1]; exact Bool.false_ne_true)
  push_neg at h2
  exact absurd (decide_eq_true heq.symm) (by simpa using h2 r hr)

theorem generate_loop_spec (base : ℚ) (recent : List ℚ) (z : ℤ)
    (hbase : base = (z : ℚ) / 10000) :
    ∀ ks a, generate_unique_amount_loop base recent ks = some a →
      base < a ∧ round4 a = a ∧ ∀ r ∈ recent, a ≠ r := by
  intro ks
  induction ks with
  | nil => intro a h; exact absurd h (by simp [generate_unique_amount_loop])
  | cons k ks ih =>
      intro a h
      unfold generate_unique_amount_loop at h
      set addition : ℚ :=
        if decide ((k : ℚ) / 10000 < 1/10000) then 1/10000
        else (k : ℚ) / 10000 with haddition
      have hadd : ∃ w : ℤ, 1 ≤ w ∧ addition = (w : ℚ) / 10000 := by
        rw [haddition]
        by_cases hk : ((k : ℚ) / 10000 < 1/10000)
        · rw [if_pos (decide_eq_true hk)]
          exact ⟨1, le_refl 1, by norm_num⟩
        · rw [if_neg (by simpa using hk)]
          refine ⟨(k : ℤ), ?_, by push_cast; ring⟩
          have hk2 : (1 : ℚ) / 10000 ≤ (k : ℚ) / 10000 := not_lt.mp hk
          have hk3 : (1 : ℚ) ≤ (k : ℚ) := by linarith
          exact_mod_cast hk3
      obtain ⟨w, hw1, hw2⟩ := hadd
      have hsum : base + addition = ((z + w : ℤ) : ℚ) / 10000 := by
        rw [hbase, hw2]; push_cast; ring
      have hfix : round4 (base + addition) = base + addition := by
        rw [hsum]; exact round4_fix (z + w)
      by_cases hu : amountIsUnique (round4 (base + addition)) recent = true
      · rw [if_pos hu] at h
        have ha : a = round4 (base + addition) := (Option.some.injEq _ _).mp h.symm
        subst ha
        refine ⟨?_, ?_, ?_⟩
        · rw [hfix]
          have hwq : (1 : ℚ) ≤ (w : ℚ) := by exact_mod_cast hw1
          have : (0 : ℚ) < addition := by rw [hw2]; linarith
          linarith
        · rw [hfix, hsum]; exact round4_fix (z + w)
        · exact amountIsUnique_ne _ recent hu
      · rw [if_neg hu] at h
        exact ih a h

theorem round4_idem (q : ℚ) : round4 (round4 q) = round4 q :=
  round4_fix (round (q * 10000))

/-- C4 amended: for a 4-decimal base and a fallback suffix of at least the
tolerance, the generated amount always exceeds the base and is an exact
4-decimal number, and whenever the attempt loop succeeds within the
100-draw cap the result is distinct from every element of the local
collision list handed to the generator; on-chain transfer amounts are not
an input of the generator at all (the source only screens them against the
unperturbed base amount, with a 0.01 tolerance, in a separate pre-check).
Distinctness is read off the set-membership conjunct of the uniqueness
test, on which float and exact arithmetic agree; how the float program
resolves candidates within an ulp of exactly 1e-4 from a local element is
not asserted. -/
theorem generate_unique_amount_spec (base : ℚ) (recent : List ℚ)
    (draws : List ℕ) (fallback : ℚ) (hbase : round4 base = base)
    (hfb : amountTol ≤ fallback) :
    base < generate_unique_amount base recent draws fallback
    ∧ round4 (generate_unique_amount base recent draws fallback)
        = generate_unique_amount base recent draws fallback
    ∧ ∀ a, generate_unique_amount_loop base recent (draws.take 100) = some a →
        generate_unique_amount base recent draws fallback = a
        ∧ ∀ r ∈ recent, a ≠ r := by
  obtain ⟨z, hz⟩ := round4_grid hbase
  cases hloop : generate_unique_amount_loop base recent (draws.take 100) with
  | some a =>
      have hg : generate_unique_amount base recent draws fallback = a := by
        unfold generate_unique_amount; rw [hloop]
      obtain ⟨h1, h2, h3⟩ := generate_loop_spec base recent z hz _ a hloop
      rw [hg]
      refine ⟨h1, h2, ?_⟩
      intro a2 ha2
      injection ha2 with h4
      subst h4
      exact ⟨rfl, h3⟩
  | none =>
      have hg : generate_unique_amount base recent draws fallback
          = round4 (base + fallback) := by
        unfold generate_unique_amount; rw [hloop]
      rw [hg]
      refine ⟨?_, round4_idem _, ?_⟩
      · have htol : amountTol = 1/10000 := rfl
        have h1 : base + 1/10000 ≤ base + fallback := by linarith
        have h2 : round4 (base + 1/10000) ≤ round4 (base + fallback) :=
          round4_mono h1
        have h3 : round4 (base + 1/10000) = base + 1/10000 := by
          rw [hz, show ((z : ℚ)/10000 + 1/10000) = ((z + 1 : ℤ) : ℚ)/10000
            by push_cast; ring]
          exact round4_fix (z + 1)
        linarith
      · intro a ha
        exact Option.noConfusion ha

/-- Closed witness for generate_unique_amount_spec at base 5 with a single
local collision amount 5.5 and first draw 1. -/
theorem generate_unique_amount_spec_witness :
    (5 : ℚ) < generate_unique_amount 5 [11/2] [1] (1/10000)
    ∧ round4 (generate_unique_amount 5 [11/2] [1] (1/10000))
        = generate_unique_amount 5 [11/2] [1] (1/10000)
    ∧ ∀ a, generate_unique_amount_loop 5 [11/2] ([1].take 100) = some a →
        generate_unique_amount 5 [11/2] [1] (1/10000) = a
        ∧ ∀ r ∈ [(11/2 : ℚ)], a ≠ r :=
  generate_unique_amount_spec 5 [11/2] [1] (1/10000)
    (by unfold round4; norm_num) (by norm_num [amountTol])

/-- PaymentProcessor._validate_amount (lines 193-238) with the default
environment limits.  NaN and the infinities of the source have no rational
counterpart; the remaining checks are modelled exactly. -/
def validate_amount (amount : ℚ) (currency : String) : Bool :=
  if strStrip currency == "" then false
  else if decide (amount ≤ 0) then false
  else if decide ((1000000000000000 : ℚ) < amount) then false
  else if !(decide (round4 amount = amount)) then false
  else if currency == "USDT" && decide (amount < 1/10) then false
  else if currency == "TRX" && decide (amount < 1) then false
  else if currency == "USDT" && decide ((10000 : ℚ) < amount) then false
  else if currency == "TRX" && decide ((100000 : ℚ) < amount) then false
  else true

/-- Character-list prefix test used by the substring searches below. -/
def startsWithChars : List Char → List Char → Bool
  | [], _ => true
  | _ :: _, [] => false
  | a :: as, b :: bs => a == b && startsWithChars as bs

/-- Substring occurrence on character lists. -/
def listContainsSub (sub : List Char) : List Char → Bool
  | [] => startsWithChars sub []
  | c :: cs => startsWithChars sub (c :: cs) || listContainsSub sub cs

/-- Whitespace-star-then-equals, the tail of the event-handler regexes. -/
def matchWsEq : List Char → Bool
  | [] => false
  | c :: cs => if c == '=' then true else
      if c.isWhitespace then matchWsEq cs else false

/-- Occurrence of an event-handler pattern such as onload\s*= (the input is
already lowercased, matching the case-insensitive search). -/
def eventHandlerSearch (evt : List Char) : List Char → Bool
  | [] => false
  | c :: cs =>
      (startsWithChars evt (c :: cs)
        && matchWsEq (List.drop evt.length (c :: cs)))
      || eventHandlerSearch evt cs

/-- Occurrence of the script-open-tag regex: the literal lowercase chars of
the tag name followed by any run of non-closing characters and a closing
angle bracket, which on a flat scan is the existence of a later closing
bracket. -/
def scriptTagSearch : List Char → Bool
  | [] => false
  | c :: cs =>
      (startsWithChars ['<', 's', 'c', 'r', 'i', 'p', 't'] (c :: cs)
        && (List.drop 7 (c :: cs)).contains '>')
      || scriptTagSearch cs

/-- The dangerous-character list of _validate_description (line 146). -/
def dangerousChars : List Char :=
  ['<', '>', '\"', '\'', '&', '\n', '\r', '\t', '\x00', '\x1a', '\x00']

/-- The SQL keyword list of _validate_description (lines 150-152). -/
def sqlKeywords : List String :=
  ["SELECT", "INSERT", "UPDATE", "DELETE", "DROP", "CREATE", "ALTER",
   "EXEC", "UNION", "SCRIPT", "JAVASCRIPT", "EXECUTE", "TRUNCATE", "GRANT",
   "REVOKE", "COMMIT", "ROLLBACK"]

/-- PaymentProcessor._validate_description (lines 135-176) with the default
500-character limit. -/
def validate_description (description : String) : Bool :=
  if decide (500 < description.length) then false
  else if (strStrip description).length == 0 then true
  else if dangerousChars.any (fun c => description.data.contains c) then false
  else if sqlKeywords.any
      (fun k => listContainsSub k.data (strUpper description).data) then false
  else if description.data.any
      (fun c => decide (c.toNat < 32) && !(c == ' ' || c == '\t')) then false
  else if listContainsSub "javascript:".data (strLower description).data then
    false
  else if listContainsSub "data:text/html".data (strLower description).data then
    false
  else if listContainsSub "vbscript:".data (strLower description).data then
    false
  else if scriptTagSearch (strLower description).data then false
  else if listContainsSub "</script>".data (strLower description).data then
    false
  else if eventHandlerSearch "onload".data (strLower description).data then
    false
  else if eventHandlerSearch "onerror".data (strLower description).data then
    false
  else if eventHandlerSearch "onclick".data (strLower description).data then
    false
  else if eventHandlerSearch "onmouseover".data (strLower description).data then
    false
  else true

/-- Python int() on an all-digit string, over the character list. -/
def digitsToNat (l : List Char) : ℕ :=
  l.foldl (fun acc c => acc * 10 + (c.toNat - 48)) 0

/-- PaymentProcessor._validate_telegram_user_id (lines 1068-1082). -/
def validate_telegram_user_id (user_id : String) : Bool :=
  user_id != "" && user_id.data.all Char.isDigit &&
  (let n := digitsToNat user_id.data
   decide (0 < n) && decide (n ≤ 2 ^ 63 - 1))

/-- The rate-limiting state mutated by _check_form_creation_limits: the
process-wide last creation time, the per-user last creation times and the
per-user hourly counters; the Python dictionaries are modelled as
association lists in insertion order. -/
structure RateLimitState where
  last_form_creation_time : ℚ
  user_last_form_time : List (String × ℚ)
  user_form_counts : List (String × ℕ)
  deriving DecidableEq, Repr

/-- Dictionary lookup on an association list. -/
def lookupA {β : Type} (m : List (String × β)) (k : String) : Option β :=
  match m.find? (fun p => p.1 == k) with
  | some p => some p.2
  | none => none

/-- Dictionary write on an association list, keeping insertion order. -/
def insertA {β : Type} (m : List (String × β)) (k : String) (v : β) :
    List (String × β) :=
  if m.any (fun p => p.1 == k) then
    m.map (fun p => if p.1 == k then (k, v) else p)
  else m ++ [(k, v)]

/-- PaymentProcessor._cleanup_user_counters (lines 393-423): only acts when
the per-user map exceeds 10000 entries; evicts the entries older than one
hour from both maps, then if still above the cap evicts the oldest entries
down to 1000 free slots (the Python sort on dictionary items is stable on
insertion order, as is the modelled merge sort). -/
def cleanup_user_counters (now : ℚ) (st : RateLimitState) : RateLimitState :=
  if decide (10000 < st.user_last_form_time.length) then
    let hour_ago := now - 1 * 3600
    let expired := st.user_last_form_time.filter
      (fun p => decide (p.2 < hour_ago))
    let st1 : RateLimitState :=
      { st with
        user_last_form_time := st.user_last_form_time.filter
          (fun p => !(decide (p.2 < hour_ago))),
        user_form_counts := st.user_form_counts.filter
          (fun p => !(expired.any (fun q => q.1 == p.1))) }
    if decide (10000 < st1.user_last_form_time.length) then
      let oldest := (st1.user_last_form_time.mergeSort
          (fun a b => decide (a.2 ≤ b.2))).take
        (st1.user_last_form_time.length - 10000 + 1000)
      { st1 with
        user_last_form_time := st1.user_last_form_time.filter
          (fun p => !(oldest.any (fun q => q.1 == p.1))),
        user_form_counts := st1.user_form_counts.filter
          (fun p => !(oldest.any (fun q => q.1 == p.1))) }
    else st1
  else st

/-- The tail of _check_form_creation_limits once the per-user interval check
has passed: hourly quota, then the recording of both per-user entries and
the cleanup call. -/
def recordUser (now : ℚ) (u : String) (st : RateLimitState) :
    RateLimitState × Option String :=
  let st2 : RateLimitState := { st with
    user_last_form_time := insertA st.user_last_form_time u now,
    user_form_counts := insertA st.user_form_counts u
      ((lookupA st.user_form_counts u).getD 0 + 1) }
  (cleanup_user_counters now st2, none)

/-- Hourly quota check of _check_form_creation_limits (lines 372-376). -/
def checkUserQuota (now : ℚ) (u : String) (st : RateLimitState) :
    RateLimitState × Option String :=
  match lookupA st.user_form_counts u with
  | some c =>
      if decide (20 ≤ c) then (st, some "user hourly form cap")
      else recordUser now u st
  | none => recordUser now u st

/-- PaymentProcessor._check_form_creation_limits (lines 342-391) with the
default limits, returning the mutated rate state together with the raised
error if any; mutations made before a raise are kept, as in the source
(the interpolated Russian messages are modelled by stable labels). -/
def check_form_creation_limits (now : ℚ) (active_forms_count : ℕ)
    (user_id : Option String) (st : RateLimitState) :
    RateLimitState × Option String :=
  if decide (1000 ≤ active_forms_count) then
    (st, some "total form cap exceeded")
  else if decide (now - st.last_form_creation_time < 1/2) then
    (st, some "global form creation interval")
  else
    let st1 : RateLimitState := { st with last_form_creation_time := now }
    match user_id with
    | none => (st1, none)
    | some u =>
      if !(validate_telegram_user_id u) then (st1, some "invalid user_id")
      else
        match lookupA st1.user_last_form_time u with
        | some tlast =>
            if decide (now - tlast < 2) then
              (st1, some "user form creation interval")
            else checkUserQuota now u st1
        | none => checkUserQuota now u st1

/-- PaymentProcessor.create_payment_form (lines 526-597), after the Python
type checks (enforced here by the embedding types): threads the rate state
and returns the stored form row on success.  The merchant wallet, the
active-form and pending-transaction snapshots, the on-chain amounts fetched
by _get_blockchain_transaction_amounts, the attempt draws, the fallback
suffix and the fresh UUID are parameters; the database insert of the fresh
UUID succeeds. -/
def create_payment_form (now : ℚ) (wallet : String)
    (active_forms : List FormRow) (pending_txs : List TransactionRow)
    (chain_amounts : List ℚ) (draws : List ℕ) (fallback : ℚ)
    (form_id : String) (amount : ℚ) (currency description : String)
    (expires_hours : ℤ) (user_id : Option String) (st : RateLimitState) :
    RateLimitState × Except String FormRow :=
  let r := check_form_creation_limits now active_forms.length user_id st
  match r.2 with
  | some e => (r.1, Except.error e)
  | none =>
    if !(validate_amount amount currency) then
      (r.1, Except.error "invalid amount")
    else if !(validate_description description) then
      (r.1, Except.error "invalid description")
    else if !(validate_tron_address wallet) then
      (r.1, Except.error "invalid wallet address")
    else if !(currency == "TRX" || currency == "USDT") then
      (r.1, Except.error "unsupported currency")
    else if decide (expires_hours < 1) || decide (168 < expires_hours) then
      (r.1, Except.error "invalid expiry")
    else if !(check_recent_transactions amount
        (get_recent_transaction_amounts currency active_forms pending_txs)
        chain_amounts) then
      (r.1, Except.error "amount similar to recent transactions")
    else
      (r.1, Except.ok
        { form_id := form_id,
          amount := generate_unique_amount amount
            (get_recent_transaction_amounts currency active_forms
              pending_txs) draws fallback,
          currency := currency, description := description,
          status := "pending",
          expires_at := now + (expires_hours : ℚ) * 3600,
          wallet_address := wallet })

/-- C4 counterexample: with no active forms, no pending transactions and a
recent on-chain transfer of exactly 5.5 to the merchant wallet, the
creation flow for base amount 5 succeeds with perturbed amount 5.5 (draw
5000): the result coincides with the on-chain element of the collision set
(distance 0, not more than 1e-4), because the generator never consults
on-chain amounts.  Every arithmetic step at this input is exact in
binary64 (5000/10000.0 = 0.5, 5.0 + 0.5 = 5.5, round(5.5, 4) = 5.5, and
the only tolerance comparison is at distance 0.5 against 0.01), so the
float program and the exact-rational model agree on this run. -/
theorem generate_unique_amount_claim_false :
    (create_payment_form 1 demoWallet [] [] [11/2] [5000] (1/10000) "f1" 5
        "USDT" "" 24 none ⟨0, [], []⟩).2
      = Except.ok ⟨"f1", 11/2, "USDT", "", "pending", 1 + 24 * 3600,
          demoWallet⟩
    ∧ (11/2 : ℚ) ∈ [(11/2 : ℚ)]
    ∧ ¬ (amountTol < |(11/2 : ℚ) - 11/2|) := by
  refine ⟨?_, List.mem_singleton.mpr rfl, by norm_num [amountTol]⟩
  have h1 : (strStrip "USDT" == "") = false := by decide
  have h2 : validate_tron_address demoWallet = true := by decide
  have h3 : validate_description "" = true := by decide
  have ha2 : |(1 : ℚ)/2| = 1/2 := abs_of_nonneg (by norm_num)
  norm_num [create_payment_form, check_form_creation_limits,
    validate_amount, h1, h2, h3, ha2, round4, round_eq,
    check_recent_transactions, get_recent_transaction_amounts,
    collectPendingTxAmounts, generate_unique_amount,
    generate_unique_amount_loop, amountIsUnique, amountTol]

theorem lookupA_none_any {β : Type} (m : List (String × β)) (k : String)
    (h : lookupA m k = none) : (m.any (fun p => p.1 == k)) = false := by
  unfold lookupA at h
  cases hf : m.find? (fun p => p.1 == k) with
  | some p => rw [hf] at h; cases h
  | none =>
      rw [List.find?_eq_none] at hf
      rw [Bool.eq_false_iff]
      intro hany
      obtain ⟨p, hp, hk⟩ := List.any_eq_true.mp hany
      exact absurd hk (by simpa using hf p hp)

theorem insertA_not_mem {β : Type} (m : List (String × β)) (k : String)
    (v : β) (h : (m.any (fun p => p.1 == k)) = false) :
    insertA m k v = m ++ [(k, v)] := by
  unfold insertA
  rw [if_neg (by rw [h]; exact Bool.false_ne_true)]

theorem find_append_self {β : Type} (k : String) (v : β) :
    ∀ m : List (String × β), (m.any (fun p => p.1 == k)) = false →
      ((m ++ [(k, v)]).find? (fun p => p.1 == k)) = some (k, v) := by
  intro m
  induction m with
  | nil =>
      intro _
      simp only [List.nil_append]
      exact List.find?_cons_of_pos _ (by simp)
  | cons p ps ih =>
      intro h
      have h2 := h
      rw [List.any_cons, Bool.or_eq_false_iff] at h2
      obtain ⟨hp, hps⟩ := h2
      rw [List.cons_append, List.find?_cons_of_neg _ (by simp [hp])]
      exact ih hps

theorem lookupA_append_self {β : Type} (m : List (String × β)) (k : String)
    (v : β) (h : (m.any (fun p => p.1 == k)) = false) :
    lookupA (m ++ [(k, v)]) k = some v := by
  unfold lookupA
  rw [find_append_self k v m h]

theorem cleanup_noop (now : ℚ) (st : RateLimitState)
    (h : st.user_last_form_time.length ≤ 10000) :
    cleanup_user_counters now st = st := by
  unfold cleanup_user_counters
  rw [if_neg (by simp only [decide_eq_true_eq]; omega)]

/-- C10: create_payment_form updates the whole rate-limit state (global
last-creation time, per-user last time, per-user hourly counter) before any
amount, description, currency or expiry validation runs, so a call rejected
by validation still consumes the budget, and any immediately following call
within the global minimum interval is rejected as rate-limited. -/
theorem create_form_consumes_budget_before_validation
    (now : ℚ) (wallet : String) (active_forms : List FormRow)
    (pending_txs : List TransactionRow) (chain_amounts : List ℚ)
    (draws : List ℕ) (fallback : ℚ) (form_id : String) (amount : ℚ)
    (currency description : String) (expires_hours : ℤ) (u : String)
    (st : RateLimitState)
    (hcap : active_forms.length < 1000)
    (hglob : 1/2 ≤ now - st.last_form_creation_time)
    (huid : validate_telegram_user_id u = true)
    (hnew : lookupA st.user_last_form_time u = none)
    (hcnt : lookupA st.user_form_counts u = none)
    (hsize : st.user_last_form_time.length < 10000)
    (hbad : validate_amount amount currency = false) :
    create_payment_form now wallet active_forms pending_txs chain_amounts
        draws fallback form_id amount currency description expires_hours
        (some u) st
      = (⟨now, st.user_last_form_time ++ [(u, now)],
          st.user_form_counts ++ [(u, 1)]⟩, Except.error "invalid amount")
    ∧ lookupA (st.user_last_form_time ++ [(u, now)]) u = some now
    ∧ lookupA (st.user_form_counts ++ [(u, 1)]) u = some 1
    ∧ ∀ (now2 : ℚ) (wallet2 : String) (af2 : List FormRow)
        (pt2 : List TransactionRow) (ca2 : List ℚ) (dr2 : List ℕ)
        (fb2 : ℚ) (fid2 : String) (amt2 : ℚ) (cur2 desc2 : String)
        (exp2 : ℤ) (uid2 : Option String),
        af2.length < 1000 → now2 - now < 1/2 →
        create_payment_form now2 wallet2 af2 pt2 ca2 dr2 fb2 fid2 amt2 cur2
          desc2 exp2 uid2
          ⟨now, st.user_last_form_time ++ [(u, now)],
            st.user_form_counts ++ [(u, 1)]⟩
        = (⟨now, st.user_last_form_time ++ [(u, now)],
            st.user_form_counts ++ [(u, 1)]⟩,
           Except.error "global form creation interval") := by
  have hanyl := lookupA_none_any _ _ hnew
  have hanyc := lookupA_none_any _ _ hcnt
  have hquota : checkUserQuota now u
      ⟨now, st.user_last_form_time, st.user_form_counts⟩
      = (⟨now, st.user_last_form_time ++ [(u, now)],
          st.user_form_counts ++ [(u, 1)]⟩, none) := by
    unfold checkUserQuota
    simp only [hcnt]
    unfold recordUser
    simp only [hcnt, Option.getD_none]
    rw [show insertA st.user_last_form_time u now
        = st.user_last_form_time ++ [(u, now)] from
        insertA_not_mem _ _ _ hanyl]
    rw [show insertA st.user_form_counts u (0 + 1)
        = st.user_form_counts ++ [(u, 0 + 1)] from
        insertA_not_mem _ _ _ hanyc]
    rw [show (0 + 1 : ℕ) = 1 from rfl]
    rw [cleanup_noop _ _ (by simp only [List.length_append,
      List.length_cons, List.length_nil]; omega)]
  have hlims : check_form_creation_limits now active_forms.length (some u) st
      = (⟨now, st.user_last_form_time ++ [(u, now)],
          st.user_form_counts ++ [(u, 1)]⟩, none) := by
    unfold check_form_creation_limits
    rw [if_neg (by simp only [decide_eq_true_eq]; omega)]
    rw [if_neg (by simp only [decide_eq_true_eq]; intro hc; linarith)]
    simp only [huid, Bool.not_true, Bool.false_eq_true, if_false]
    simp only [hnew]
    exact hquota
  refine ⟨?_, lookupA_append_self _ _ _ hanyl,
    lookupA_append_self _ _ _ hanyc, ?_⟩
  · unfold create_payment_form
    simp only [hlims, hbad, Bool.not_false, if_true]
  · intro now2 wallet2 af2 pt2 ca2 dr2 fb2 fid2 amt2 cur2 desc2 exp2 uid2
      h1 h2
    unfold create_payment_form check_form_creation_limits
    rw [if_neg (by simp only [decide_eq_true_eq]; omega)]
    rw [if_pos (by simp only [decide_eq_true_eq]; simpa using h2)]

/-- Closed witness for C10: a call with a zero amount at time 1, fresh user
42, empty rate state. -/
theorem create_form_consumes_budget_before_validation_witness :
    create_payment_form 1 demoWallet [] [] [] [] (1/10000) "f1" 0 "USDT" ""
        24 (some "42") ⟨0, [], []⟩
      = (⟨1, [("42", 1)], [("42", 1)]⟩, Except.error "invalid amount")
    ∧ lookupA ((([] : List (String × ℚ)) ++ [("42", 1)])) "42" = some 1
    ∧ lookupA ((([] : List (String × ℕ)) ++ [("42", 1)])) "42" = some 1
    ∧ ∀ (now2 : ℚ) (wallet2 : String) (af2 : List FormRow)
        (pt2 : List TransactionRow) (ca2 : List ℚ) (dr2 : List ℕ)
        (fb2 : ℚ) (fid2 : String) (amt2 : ℚ) (cur2 desc2 : String)
        (exp2 : ℤ) (uid2 : Option String),
        af2.length < 1000 → now2 - 1 < 1/2 →
        create_payment_form now2 wallet2 af2 pt2 ca2 dr2 fb2 fid2 amt2 cur2
          desc2 exp2 uid2 ⟨1, [("42", 1)], [("42", 1)]⟩
        = (⟨1, [("42", 1)], [("42", 1)]⟩,
           Except.error "global form creation interval") := by
  have h1 : (strStrip "USDT" == "") = false := by decide
  have hbad : validate_amount 0 "USDT" = false := by
    norm_num [validate_amount, h1]
  have := create_form_consumes_budget_before_validation 1 demoWallet [] []
    [] [] (1/10000) "f1" 0 "USDT" "" 24 "42" ⟨0, [], []⟩
    (by decide) (by norm_num) (by decide) rfl rfl (by decide) hbad
  simpa using this
